import Mathlib

/-!
Verification of the SD-AQI on-device gas-sensor engine (Arduino sketch embedded
in `research/sd_aqi_paper.md`).  The sketch's float arithmetic is modelled over
`ℚ` (exact rational arithmetic) for the sampler / resistance / smoother / index
/ alert layers, and over `ℝ` for the logarithmic curve-fitting and
concentration-estimation layers.  A C `float` that can be NaN is modelled as
`Option ℚ` (resp. `Option ℝ`): `none` stands for NaN / invalid.
-/

namespace SDAQI

/-! ### Configuration constants (lines 207-266 of the sketch) -/

def MQ2_PIN : ℕ := 0
def MQ7_PIN : ℕ := 1
def MQ4_PIN : ℕ := 4
def MQ9_PIN : ℕ := 2
def MQ135_PIN : ℕ := 3
def MQ8_PIN : ℕ := 5

def RL_VALUE : ℚ := 10

def READ_SAMPLE_TIMES : ℕ := 5

def ANALOG_READ_RETRIES : ℕ := 5

def EMA_ALPHA : ℚ := 0.25

def MAX_CO2_THRESHOLD : ℚ := 500.0
def MAX_CO_THRESHOLD : ℚ := 15.0
def MAX_NOX_THRESHOLD : ℚ := 2.0
def MAX_HYDROCARBONS_THRESHOLD : ℚ := 1.0
def MAX_MOISTURE_THRESHOLD : ℚ := 60.0

/-! ### Resistance model (`MQResistanceCalculation`, lines 268-274)

`raw_adc == 0` prints an error and returns NaN (modelled as `none`); otherwise
`R = RL_VALUE * (1023 - raw) / raw`. -/

def MQResistanceCalculation (raw : ℤ) : Option ℚ :=
  if raw = 0 then none
  else some (RL_VALUE * (1023 - (raw : ℚ)) / (raw : ℚ))

/-! ### Sampler (`analogReadWithRetries`, lines 277-285, and
`readAnalogFilteredRaw`, lines 288-308)

`retryRead` models the retry loop: it walks the successive raw ADC readings the
hardware would deliver, returning the first strictly-between-rails value, or the
last attempted value when all attempts hit a rail.  `analogReadWithRetries`
bounds the attempts by `ANALOG_READ_RETRIES`. -/

def retryRead : List ℕ → ℕ → ℕ
  | [], last => last
  | v :: rest, _ => if 0 < v ∧ v < 1023 then v else retryRead rest v

def analogReadWithRetries (reads : List ℕ) : ℕ :=
  retryRead (reads.take ANALOG_READ_RETRIES) 0

/-- `readAnalogFilteredRaw`: take `n = READ_SAMPLE_TIMES` samples, find min and
max (initial accumulators 1024 and -1 as in the C code), subtract one min and
one max from the sum and divide by `n - 2` when `n > 2`, else plain mean.
C integer division on the nonnegative quantities involved is `Int` division. -/
def readAnalogFilteredRaw (n : ℕ) (samples : List ℤ) : ℤ :=
  let minv := samples.foldl (fun m s => if s < m then s else m) 1024
  let maxv := samples.foldl (fun m s => if m < s then s else m) (-1)
  let sum := samples.foldl (· + ·) 0
  if n > 2 then (sum - minv - maxv) / ((n : ℤ) - 2)
  else sum / (n : ℤ)

/-! ### Smoother (`MQRead`, lines 333-360)

One exponential-moving-average state per sensor pin, held in the six globals
`SmoothedRS_MQ2 .. SmoothedRS_MQ8` (all initialised to 0). -/

structure SmoothState where
  mq2 : ℚ
  mq7 : ℚ
  mq4 : ℚ
  mq9 : ℚ
  mq135 : ℚ
  mq8 : ℚ
deriving DecidableEq

def initialSmoothState : SmoothState := ⟨0, 0, 0, 0, 0, 0⟩

/-- The per-pin update applied by `MQRead`: a state `≤ 0` counts as
uninitialised and is seeded directly, otherwise blend with `EMA_ALPHA`. -/
def emaUpdate (s rs : ℚ) : ℚ :=
  if s ≤ 0 then rs else EMA_ALPHA * rs + (1 - EMA_ALPHA) * s

/-- `MQRead(mq_pin, Ro)`: computes `rs` from the filtered raw reading (passed
here already converted, as `Option ℚ`: `none` models a NaN/inf resistance);
NaN/inf returns NaN without touching any state, otherwise the pin's EMA state
is updated and returned.  The `Ro` argument of the C function is unused there
and omitted here.  Unknown pins return `rs` unsmoothed. -/
def MQRead (mq_pin : ℕ) (rs? : Option ℚ) (st : SmoothState) :
    Option ℚ × SmoothState :=
  match rs? with
  | none => (none, st)
  | some rs =>
    if mq_pin = MQ2_PIN then
      let s := emaUpdate st.mq2 rs
      (some s, { st with mq2 := s })
    else if mq_pin = MQ7_PIN then
      let s := emaUpdate st.mq7 rs
      (some s, { st with mq7 := s })
    else if mq_pin = MQ4_PIN then
      let s := emaUpdate st.mq4 rs
      (some s, { st with mq4 := s })
    else if mq_pin = MQ9_PIN then
      let s := emaUpdate st.mq9 rs
      (some s, { st with mq9 := s })
    else if mq_pin = MQ135_PIN then
      let s := emaUpdate st.mq135 rs
      (some s, { st with mq135 := s })
    else if mq_pin = MQ8_PIN then
      let s := emaUpdate st.mq8 rs
      (some s, { st with mq8 := s })
    else (some rs, st)

/-- Projection of the smoothing state at a pin (0 for pins with no state),
used to state per-channel independence of the smoother. -/
def stateAt (st : SmoothState) (pin : ℕ) : ℚ :=
  if pin = MQ2_PIN then st.mq2
  else if pin = MQ7_PIN then st.mq7
  else if pin = MQ4_PIN then st.mq4
  else if pin = MQ9_PIN then st.mq9
  else if pin = MQ135_PIN then st.mq135
  else if pin = MQ8_PIN then st.mq8
  else 0

/-! ### Composite index and severity ladder (lines 366-368 and 696-710) -/

def calculateSDAQI (co co_mq7 co_mq9 ch4 h2 co2 nox air : ℚ) : ℚ :=
  (co * 0.05) + (co_mq7 * 0.1) + (co_mq9 * 0.1) + (ch4 * 0.1) + (h2 * 0.05) +
    (co2 * 0.5) + (nox * 0.1) + (air * 0.05)

/-- The composite-index formula exactly as the specification words it:
`0.05*co + 0.10*co_mq7 + 0.10*co_mq9 + 0.10*ch4 + 0.05*h2 + 0.50*co2 +
0.10*nox + 0.05*air`, with no normalization or clamping.  Stated separately so
the source formula can be proved to refine it. -/
def spec_compositeIndex (co co_mq7 co_mq9 ch4 h2 co2 nox air : ℚ) : ℚ :=
  0.05 * co + 0.10 * co_mq7 + 0.10 * co_mq9 + 0.10 * ch4 + 0.05 * h2 +
    0.50 * co2 + 0.10 * nox + 0.05 * air

/-- The severity ladder of `loop` (lines 698-710); `"Excellent"` is the lowest
band. -/
def SD_AQI_level (x : ℚ) : String :=
  if x ≤ 50 then "Excellent"
  else if x ≤ 100 then "Good"
  else if x ≤ 150 then "Moderate"
  else if x ≤ 200 then "Unhealthy for Sensitive Groups"
  else if x ≤ 300 then "Unhealthy"
  else "Hazardous"

/-! ### Absolute alerts (`evaluateAirQuality`, lines 370-413)

The C function prints one alert per breached ceiling; we model its observable
output as the list of alert kinds printed, in program order. -/

inductive AlertKind where
  | co2
  | co
  | lpg
  | nox
  | benzene
  | humidity
deriving DecidableEq

def evaluateAirQuality (co2v cov lpgv noxv bzv huv : ℚ) : List AlertKind :=
  (if co2v > MAX_CO2_THRESHOLD then [AlertKind.co2] else []) ++
  (if cov > MAX_CO_THRESHOLD then [AlertKind.co] else []) ++
  (if lpgv > MAX_HYDROCARBONS_THRESHOLD then [AlertKind.lpg] else []) ++
  (if noxv > MAX_NOX_THRESHOLD then [AlertKind.nox] else []) ++
  (if bzv > MAX_HYDROCARBONS_THRESHOLD then [AlertKind.benzene] else []) ++
  (if huv > MAX_MOISTURE_THRESHOLD then [AlertKind.humidity] else [])

/-! ### Per-cycle emission gate of `loop` (lines 694-769)

`loop` computes thirteen gas estimates plus humidity and temperature, and only
if ALL fifteen are non-NaN does it compute the index, classify it, and emit the
JSON snapshot; otherwise it prints an error line and emits nothing.  We model
the emitted snapshot (or its absence) as the cycle's observable output. -/

structure Snapshot where
  lpg : ℚ
  co : ℚ
  smoke : ℚ
  co_mq7 : ℚ
  ch4 : ℚ
  co_mq9 : ℚ
  co2 : ℚ
  nh3 : ℚ
  nox : ℚ
  alcohol : ℚ
  benzene : ℚ
  h2 : ℚ
  air : ℚ
  temperature : ℚ
  humidity : ℚ
  sd_aqi : ℚ
  level : String
deriving DecidableEq

def loopEmit (lpg co smoke co_mq7 ch4 co_mq9 co2 nh3 nox alcohol benzene h2 air
    humidity temperature : Option ℚ) : Option Snapshot :=
  lpg.bind fun lpgv =>
  co.bind fun cov =>
  smoke.bind fun smokev =>
  co_mq7.bind fun comq7v =>
  ch4.bind fun ch4v =>
  co_mq9.bind fun comq9v =>
  co2.bind fun co2v =>
  nh3.bind fun nh3v =>
  nox.bind fun noxv =>
  alcohol.bind fun alcv =>
  benzene.bind fun bzv =>
  h2.bind fun h2v =>
  air.bind fun airv =>
  humidity.bind fun huv =>
  temperature.bind fun tev =>
  some { lpg := lpgv, co := cov, smoke := smokev, co_mq7 := comq7v,
         ch4 := ch4v, co_mq9 := comq9v, co2 := co2v, nh3 := nh3v,
         nox := noxv, alcohol := alcv, benzene := bzv, h2 := h2v,
         air := airv, temperature := tev, humidity := huv,
         sd_aqi := calculateSDAQI cov comq7v comq9v ch4v h2v co2v noxv airv,
         level := SD_AQI_level
           (calculateSDAQI cov comq7v comq9v ch4v h2v co2v noxv airv) }

theorem bind_none_of_forall {α β : Type} {o : Option α} {f : α → Option β}
    (h : ∀ a, f a = none) : o.bind f = none := by
  cases o with
  | none => rfl
  | some a => exact h a

theorem MQRead_mq2 (rs : ℚ) (st : SmoothState) :
    MQRead MQ2_PIN (some rs) st =
      (some (emaUpdate st.mq2 rs), { st with mq2 := emaUpdate st.mq2 rs }) := rfl

theorem MQRead_mq7 (rs : ℚ) (st : SmoothState) :
    MQRead MQ7_PIN (some rs) st =
      (some (emaUpdate st.mq7 rs), { st with mq7 := emaUpdate st.mq7 rs }) := rfl

theorem MQRead_mq4 (rs : ℚ) (st : SmoothState) :
    MQRead MQ4_PIN (some rs) st =
      (some (emaUpdate st.mq4 rs), { st with mq4 := emaUpdate st.mq4 rs }) := rfl

theorem MQRead_mq9 (rs : ℚ) (st : SmoothState) :
    MQRead MQ9_PIN (some rs) st =
      (some (emaUpdate st.mq9 rs), { st with mq9 := emaUpdate st.mq9 rs }) := rfl

theorem MQRead_mq135 (rs : ℚ) (st : SmoothState) :
    MQRead MQ135_PIN (some rs) st =
      (some (emaUpdate st.mq135 rs), { st with mq135 := emaUpdate st.mq135 rs }) := rfl

theorem MQRead_mq8 (rs : ℚ) (st : SmoothState) :
    MQRead MQ8_PIN (some rs) st =
      (some (emaUpdate st.mq8 rs), { st with mq8 := emaUpdate st.mq8 rs }) := rfl

theorem MQRead_unknown (p : ℕ) (rs : ℚ) (st : SmoothState)
    (h0 : p ≠ MQ2_PIN) (h1 : p ≠ MQ7_PIN) (h4 : p ≠ MQ4_PIN)
    (h2 : p ≠ MQ9_PIN) (h3 : p ≠ MQ135_PIN) (h5 : p ≠ MQ8_PIN) :
    MQRead p (some rs) st = (some rs, st) := by
  rw [MQRead]
  rw [if_neg h0, if_neg h1, if_neg h4, if_neg h2, if_neg h3, if_neg h5]

/-! ### Curve representation and concentration estimator (lines 232-244, 362-364)

The logarithmic layers are modelled over `ℝ`. -/

structure Curve where
  p0 : ℝ
  p1 : ℝ
  p2 : ℝ

/-- C's `log10`. -/
noncomputable def log10 (x : ℝ) : ℝ := Real.log x / Real.log 10

/-- `MQGetGasPercentage(rs_ro_ratio, pcurve)`:
`pow(10, ((log(rs_ro_ratio) - pcurve[1]) / pcurve[2]) + pcurve[0])`. -/
noncomputable def MQGetGasPercentage (rs_ro : ℝ) (c : Curve) : ℝ :=
  (10 : ℝ) ^ (((Real.log rs_ro - c.p1) / c.p2) + c.p0)

/-! The built-in PROGMEM curves (lines 232-244).  These are `const` data: the
sketch has no mutable curve storage, and `loop` re-reads these constants every
cycle via `readCurveFromProgmem`. -/

def MQ2Curve : Curve := ⟨1.291, 0.21, -0.47⟩
def COCurve : Curve := ⟨1.502, 0.72, -0.34⟩
def SmokeCurve : Curve := ⟨1.657, 0.53, -0.49⟩
def MQ7Curve : Curve := ⟨1.224, 0.35, -0.38⟩
def MQ4Curve : Curve := ⟨0.858, 0.26, -0.26⟩
def MQ9Curve : Curve := ⟨1.5, 0.55, -0.45⟩
def CO2Curve : Curve := ⟨2.3, 0.72, -0.34⟩
def NH3Curve : Curve := ⟨1.9, 0.85, -0.44⟩
def NOxCurve : Curve := ⟨1.8, 0.80, -0.41⟩
def AlcoholCurve : Curve := ⟨1.7, 0.78, -0.35⟩
def BenzeneCurve : Curve := ⟨1.8, 0.82, -0.40⟩
def MQ8Curve : Curve := ⟨1.0, 0.30, -0.45⟩
def AirCurve : Curve := ⟨1.5, 0.28, -0.44⟩

/-- The curve `loop` feeds to `MQGetGasPercentage` for the LPG (MQ-2) channel
on every cycle (lines 664-665): always the PROGMEM constant `MQ2Curve`. -/
def loopLPGCurve : Curve := MQ2Curve

/-! ### Two-point curve fit (`computeTwoPointCurve`, lines 509-528)

The C function writes NaN into all three outputs on degenerate input; we model
the outcome as `Option Curve` with `none` for that `DegenerateCalibration`
signal. -/

noncomputable def computeTwoPointCurve (ppm1 rsro1 ppm2 rsro2 : ℝ) :
    Option Curve :=
  let x1 := Real.log rsro1
  let x2 := Real.log rsro2
  let y1 := log10 ppm1
  let y2 := log10 ppm2
  if |x2 - x1| < 1e-6 then none
  else
    let m := (y2 - y1) / (x2 - x1)
    let p2 := 1.0 / m
    let p1 := 0.0
    let p0 := y1 - (x1 / p2) + (p1 / p2)
    some ⟨p0, p1, p2⟩

/-! ### Multi-point least-squares fit (`computeMultiPointCurve`, lines 540-565)

Returns `false` (here `none`) if fewer than 2 points, any non-positive ppm or
ratio, a degenerate regression denominator, or a near-zero slope. -/

noncomputable def computeMultiPointCurve (pts : List (ℝ × ℝ)) : Option Curve :=
  let n := pts.length
  if n < 2 then none
  else if ∃ p ∈ pts, p.2 ≤ 0 ∨ p.1 ≤ 0 then none
  else
    let sumx := (pts.map fun p => Real.log p.2).sum
    let sumy := (pts.map fun p => log10 p.1).sum
    let sumxy := (pts.map fun p => Real.log p.2 * log10 p.1).sum
    let sumx2 := (pts.map fun p => Real.log p.2 * Real.log p.2).sum
    let denom := (n : ℝ) * sumx2 - sumx * sumx
    if |denom| < 1e-12 then none
    else
      let a := ((n : ℝ) * sumxy - sumx * sumy) / denom
      let b := (sumy - a * sumx) / (n : ℝ)
      if |a| < 1e-12 then none
      else
        let p2 := 1.0 / a
        let p1 := sumx / (n : ℝ)
        let p0 := b + (p1 / p2)
        some ⟨p0, p1, p2⟩

/-! ### Interactive calibration session (`handleSerialCalibration`,
lines 585-658)

The mutable device state the sketch holds across cycles: the six smoothing
states and the six `Ro` baselines.  The active curves are NOT part of it —
they are the immutable PROGMEM constants above; the sketch has no writable
curve storage at all. -/

structure DeviceState where
  smooth : SmoothState
  Ro_MQ2 : ℚ
  Ro_MQ7 : ℚ
  Ro_MQ4 : ℚ
  Ro_MQ9 : ℚ
  Ro_MQ135 : ℚ
  Ro_MQ8 : ℚ
deriving DecidableEq

/-- The globals' initial values (lines 246-259). -/
def initialDeviceState : DeviceState := ⟨initialSmoothState, 10, 10, 10, 10, 10, 10⟩

/-- Sensor-code-to-pin dispatch of `handleSerialCalibration` (lines 620-631);
an unknown code aborts the session. -/
def sensorToPin (sensor : ℕ) : Option ℕ :=
  if sensor = 2 then some MQ2_PIN
  else if sensor = 7 then some MQ7_PIN
  else if sensor = 4 then some MQ4_PIN
  else if sensor = 9 then some MQ9_PIN
  else if sensor = 135 then some MQ135_PIN
  else if sensor = 8 then some MQ8_PIN
  else none

/-- The measurement-collection loop (lines 632-648): each reference point pairs
a ppm value with the `measureRsOverRo` result (`none` models NaN, i.e. no valid
resistance sample).  A NaN or non-positive measurement aborts the session. -/
noncomputable def collectPoints : List (ℝ × Option ℝ) → Option (List (ℝ × ℝ))
  | [] => some []
  | (_, none) :: _ => none
  | (p, some v) :: rest =>
    if v ≤ 0 then none else (collectPoints rest).map ((p, v) :: ·)

/-- The outcome `handleSerialCalibration` reports for a parsed session: the
fitted curve it prints on success (lines 650-657), or `none` on any abort or
rejected fit.  Validations in program order: `2 ≤ N ≤ 10`, every ppm positive,
known sensor code, every measurement valid, then the least-squares fit. -/
noncomputable def calibrationFitResult (sensor : ℕ)
    (points : List (ℝ × Option ℝ)) : Option Curve :=
  if points.length < 2 ∨ 10 < points.length then none
  else if ∃ p ∈ points, p.1 ≤ 0 then none
  else
    match sensorToPin sensor with
    | none => none
    | some _ =>
      match collectPoints points with
      | none => none
      | some pts => computeMultiPointCurve pts

/-- `handleSerialCalibration`, observable effect: the function reads the
per-channel globals but assigns to none of them (the curves it fits live only
in the local `newCurve[3]`, which is printed for the operator to copy into the
sketch by hand), so the device state passes through unchanged and the only
output is the reported fit. -/
noncomputable def handleSerialCalibration (sensor : ℕ)
    (points : List (ℝ × Option ℝ)) (st : DeviceState) :
    DeviceState × Option Curve :=
  (st, calibrationFitResult sensor points)

/-! Helper facts about the C-style min/max accumulation loops of
`readAnalogFilteredRaw` (initial accumulators 1024 and -1). -/

theorem foldl_min_le (l : List ℤ) : ∀ init : ℤ,
    (l.foldl (fun m s => if s < m then s else m) init ≤ init ∧
     ∀ x ∈ l, l.foldl (fun m s => if s < m then s else m) init ≤ x) := by
  induction l with
  | nil => intro init; exact ⟨le_refl _, by simp⟩
  | cons a t ih =>
    intro init
    constructor
    · have h := (ih (if a < init then a else init)).1
      simp only [List.foldl_cons]
      split_ifs at h ⊢ <;> omega
    · intro x hx
      rcases List.mem_cons.mp hx with rfl | hx
      · have h := (ih (if x < init then x else init)).1
        simp only [List.foldl_cons]
        split_ifs at h ⊢ <;> omega
      · simp only [List.foldl_cons]
        exact (ih _).2 x hx

theorem foldl_min_mem (l : List ℤ) : ∀ init : ℤ,
    (l.foldl (fun m s => if s < m then s else m) init = init ∨
     l.foldl (fun m s => if s < m then s else m) init ∈ l) := by
  induction l with
  | nil => intro init; exact Or.inl rfl
  | cons a t ih =>
    intro init
    simp only [List.foldl_cons]
    rcases ih (if a < init then a else init) with h | h
    · rw [h]
      split_ifs with hc
      · exact Or.inr (List.mem_cons_self a t)
      · exact Or.inl rfl
    · exact Or.inr (List.mem_cons_of_mem a h)

theorem foldl_max_ge (l : List ℤ) : ∀ init : ℤ,
    (init ≤ l.foldl (fun m s => if m < s then s else m) init ∧
     ∀ x ∈ l, x ≤ l.foldl (fun m s => if m < s then s else m) init) := by
  induction l with
  | nil => intro init; exact ⟨le_refl _, by simp⟩
  | cons a t ih =>
    intro init
    constructor
    · have h := (ih (if init < a then a else init)).1
      simp only [List.foldl_cons]
      split_ifs at h ⊢ <;> omega
    · intro x hx
      rcases List.mem_cons.mp hx with rfl | hx
      · have h := (ih (if init < x then x else init)).1
        simp only [List.foldl_cons]
        split_ifs at h ⊢ <;> omega
      · simp only [List.foldl_cons]
        exact (ih _).2 x hx

theorem foldl_max_mem (l : List ℤ) : ∀ init : ℤ,
    (l.foldl (fun m s => if m < s then s else m) init = init ∨
     l.foldl (fun m s => if m < s then s else m) init ∈ l) := by
  induction l with
  | nil => intro init; exact Or.inl rfl
  | cons a t ih =>
    intro init
    simp only [List.foldl_cons]
    rcases ih (if init < a then a else init) with h | h
    · rw [h]
      split_ifs with hc
      · exact Or.inr (List.mem_cons_self a t)
      · exact Or.inl rfl
    · exact Or.inr (List.mem_cons_of_mem a h)

/-! ## Claims -/

/-- Claim C9: the resistance model computes `R = Rload * (FullScale - raw) / raw`
with `FullScale = 1023` and fixed `Rload = RL_VALUE = 10`; for every raw input
with `1 ≤ raw < 1023` the result is a (finite, by construction of the `Option ℚ`
model) strictly positive value, and for `raw = 0` the operation signals an
invalid reading (`none`, modelling the NaN return) instead of dividing. -/
theorem C9_resistance_model :
    MQResistanceCalculation 0 = none ∧
    (∀ raw : ℤ, 1 ≤ raw → raw < 1023 →
      MQResistanceCalculation raw =
        some (RL_VALUE * (1023 - (raw : ℚ)) / (raw : ℚ)) ∧
      0 < RL_VALUE * (1023 - (raw : ℚ)) / (raw : ℚ)) := by
  refine ⟨rfl, fun raw h1 h2 => ⟨?_, ?_⟩⟩
  · rw [MQResistanceCalculation, if_neg (by omega)]
  · have hq1 : (0 : ℚ) < (raw : ℚ) := by exact_mod_cast h1.trans_lt' (by norm_num)
    have hq2 : (raw : ℚ) < 1023 := by exact_mod_cast h2
    apply div_pos _ hq1
    have : (0 : ℚ) < 1023 - (raw : ℚ) := by linarith
    rw [RL_VALUE]
    positivity

/-- Witness for C9 at `raw = 512`. -/
theorem C9_witness :
    MQResistanceCalculation 512 = some (RL_VALUE * (1023 - (512 : ℚ)) / (512 : ℚ)) ∧
    0 < RL_VALUE * (1023 - (512 : ℚ)) / (512 : ℚ) :=
  C9_resistance_model.2 512 (by norm_num) (by norm_num)

/-- Claim C7: the filtered sampler takes exactly 5 (`READ_SAMPLE_TIMES`)
individually-retried (up to `ANALOG_READ_RETRIES = 5` attempts each) raw reads,
discards exactly one minimum and one maximum and returns the truncated integer
mean of the remaining 3; for the sample sequence `[10, 1000, 50, 52, 48]` it
returns exactly `50`; with a configured sample count below 3 the trimming is
skipped and the plain mean of all samples is returned. -/
theorem C7_trimmed_mean :
    READ_SAMPLE_TIMES = 5 ∧
    ANALOG_READ_RETRIES = 5 ∧
    readAnalogFilteredRaw READ_SAMPLE_TIMES
      ([[10], [1000], [50], [52], [48]].map
        fun l => ((analogReadWithRetries l : ℕ) : ℤ)) = 50 ∧
    (∀ samples : List ℤ, samples.length = READ_SAMPLE_TIMES →
      (∀ x ∈ samples, 0 ≤ x ∧ x ≤ 1023) →
      ∃ mn mx, mn ∈ samples ∧ mx ∈ samples ∧
        (∀ x ∈ samples, mn ≤ x ∧ x ≤ mx) ∧
        readAnalogFilteredRaw READ_SAMPLE_TIMES samples =
          (samples.foldl (· + ·) 0 - mn - mx) / 3) ∧
    (∀ (n : ℕ) (samples : List ℤ), n < 3 →
      readAnalogFilteredRaw n samples = samples.foldl (· + ·) 0 / (n : ℤ)) := by
  refine ⟨rfl, rfl, by decide, ?_, fun n samples hn => ?_⟩
  · intro samples hlen hbound
    obtain ⟨y, hy⟩ : ∃ a, a ∈ samples :=
      List.exists_mem_of_length_pos (by rw [hlen]; norm_num [READ_SAMPLE_TIMES])
    refine ⟨samples.foldl (fun m s => if s < m then s else m) 1024,
            samples.foldl (fun m s => if m < s then s else m) (-1),
            ?_, ?_, ?_, ?_⟩
    · rcases foldl_min_mem samples 1024 with h | h
      · exfalso
        have h1 := (foldl_min_le samples 1024).2 y hy
        have h2 := (hbound y hy).2
        omega
      · exact h
    · rcases foldl_max_mem samples (-1) with h | h
      · exfalso
        have h1 := (foldl_max_ge samples (-1)).2 y hy
        have h2 := (hbound y hy).1
        omega
      · exact h
    · intro x hx
      exact ⟨(foldl_min_le samples 1024).2 x hx,
             (foldl_max_ge samples (-1)).2 x hx⟩
    · norm_num [readAnalogFilteredRaw, READ_SAMPLE_TIMES]
  · rw [readAnalogFilteredRaw, if_neg (by omega)]

/-- Witness for C7: the trimming clause instantiated at the spec's sample
sequence, and the below-3 clause at 2 samples (plain mean). -/
theorem C7_witness :
    (∃ mn mx, mn ∈ ([10, 1000, 50, 52, 48] : List ℤ) ∧
      mx ∈ ([10, 1000, 50, 52, 48] : List ℤ) ∧
      (∀ x ∈ ([10, 1000, 50, 52, 48] : List ℤ), mn ≤ x ∧ x ≤ mx) ∧
      readAnalogFilteredRaw READ_SAMPLE_TIMES [10, 1000, 50, 52, 48] =
        (([10, 1000, 50, 52, 48] : List ℤ).foldl (· + ·) 0 - mn - mx) / 3) ∧
    readAnalogFilteredRaw 2 [4, 6] =
      ([4, 6] : List ℤ).foldl (· + ·) 0 / (2 : ℤ) :=
  ⟨C7_trimmed_mean.2.2.2.1 [10, 1000, 50, 52, 48] (by decide) (by decide),
   C7_trimmed_mean.2.2.2.2 2 [4, 6] (by norm_num)⟩

/-- Claim C4: the composite index equals exactly the fixed linear combination
`0.05*co + 0.10*co_mq7 + 0.10*co_mq9 + 0.10*ch4 + 0.05*h2 + 0.50*co2 +
0.10*nox + 0.05*air` of the raw channel estimates (for ALL estimate values, so
no normalization or clamping is applied before weighting); for all-zero
estimates the index is exactly 0 and is classified at the lowest severity band
(`"Excellent"`). -/
theorem C4_composite_index :
    (∀ co co_mq7 co_mq9 ch4 h2 co2 nox air : ℚ,
      calculateSDAQI co co_mq7 co_mq9 ch4 h2 co2 nox air =
        spec_compositeIndex co co_mq7 co_mq9 ch4 h2 co2 nox air) ∧
    calculateSDAQI 0 0 0 0 0 0 0 0 = 0 ∧
    SD_AQI_level (calculateSDAQI 0 0 0 0 0 0 0 0) = "Excellent" := by
  have h0 : calculateSDAQI 0 0 0 0 0 0 0 0 = 0 := by
    rw [calculateSDAQI]; norm_num
  refine ⟨fun co co_mq7 co_mq9 ch4 h2 co2 nox air => ?_, h0, ?_⟩
  · rw [calculateSDAQI, spec_compositeIndex]
    ring
  · rw [h0, SD_AQI_level, if_pos (by norm_num)]

/-- Claim C10 (implicit): every threshold comparison in `evaluateAirQuality`
is strict — no alert is raised at a value exactly equal to its ceiling
(CO2 = 500, CO = 15, LPG = 1, NOx = 2, Benzene = 1, humidity = 60), and in
general the alert list is empty exactly when every value is `≤` its ceiling. -/
theorem C10_strict_thresholds :
    evaluateAirQuality MAX_CO2_THRESHOLD MAX_CO_THRESHOLD
      MAX_HYDROCARBONS_THRESHOLD MAX_NOX_THRESHOLD
      MAX_HYDROCARBONS_THRESHOLD MAX_MOISTURE_THRESHOLD = [] ∧
    (∀ co2v cov lpgv noxv bzv huv : ℚ,
      evaluateAirQuality co2v cov lpgv noxv bzv huv = [] ↔
        (co2v ≤ MAX_CO2_THRESHOLD ∧ cov ≤ MAX_CO_THRESHOLD ∧
         lpgv ≤ MAX_HYDROCARBONS_THRESHOLD ∧ noxv ≤ MAX_NOX_THRESHOLD ∧
         bzv ≤ MAX_HYDROCARBONS_THRESHOLD ∧ huv ≤ MAX_MOISTURE_THRESHOLD)) := by
  constructor
  · simp [evaluateAirQuality, lt_irrefl]
  · intro co2v cov lpgv noxv bzv huv
    rw [evaluateAirQuality]
    split_ifs <;> simp_all [not_lt]

/-- Claim C5: alert evaluation is independent of the composite index —
`evaluateAirQuality` never consumes the index, and membership of each alert
kind in its output depends only on that gas's own value versus its own fixed
ceiling; in particular CO2 = 600 with all other inputs 0 triggers the CO2
absolute alert. -/
theorem C5_alert_independence :
    (∀ co2v cov lpgv noxv bzv huv : ℚ,
      (AlertKind.co2 ∈ evaluateAirQuality co2v cov lpgv noxv bzv huv ↔
        MAX_CO2_THRESHOLD < co2v) ∧
      (AlertKind.co ∈ evaluateAirQuality co2v cov lpgv noxv bzv huv ↔
        MAX_CO_THRESHOLD < cov) ∧
      (AlertKind.lpg ∈ evaluateAirQuality co2v cov lpgv noxv bzv huv ↔
        MAX_HYDROCARBONS_THRESHOLD < lpgv) ∧
      (AlertKind.nox ∈ evaluateAirQuality co2v cov lpgv noxv bzv huv ↔
        MAX_NOX_THRESHOLD < noxv) ∧
      (AlertKind.benzene ∈ evaluateAirQuality co2v cov lpgv noxv bzv huv ↔
        MAX_HYDROCARBONS_THRESHOLD < bzv) ∧
      (AlertKind.humidity ∈ evaluateAirQuality co2v cov lpgv noxv bzv huv ↔
        MAX_MOISTURE_THRESHOLD < huv)) ∧
    AlertKind.co2 ∈ evaluateAirQuality 600 0 0 0 0 0 := by
  constructor
  · intro co2v cov lpgv noxv bzv huv
    rw [evaluateAirQuality]
    split_ifs <;> simp_all
  · rw [evaluateAirQuality, if_pos (by rw [MAX_CO2_THRESHOLD]; norm_num)]
    simp

/-- Counterexample to claim C3: the claim says the smoothed state is updated
ONLY when the resistance is finite and strictly positive, and that a
rail/saturated raw reading leaves `S` unchanged.  But a saturated reading
`raw = 1023` yields resistance exactly `0` (finite, non-positive), which passes
`MQRead`'s NaN/inf guard and is blended into the state: starting from
`S = 100`, the call rewrites the MQ-2 state to `75 ≠ 100`. -/
theorem C3_counterexample :
    MQResistanceCalculation 1023 = some 0 ∧
    ¬ (0 : ℚ) > 0 ∧
    (MQRead MQ2_PIN (MQResistanceCalculation 1023)
      ⟨100, 0, 0, 0, 0, 0⟩).2.mq2 = 75 ∧
    (75 : ℚ) ≠ 100 := by
  have h : MQResistanceCalculation 1023 = some 0 := by
    rw [MQResistanceCalculation, if_neg (by norm_num)]
    norm_num
  refine ⟨h, by norm_num, ?_, by norm_num⟩
  rw [h]
  norm_num [MQRead, emaUpdate, EMA_ALPHA, MQ2_PIN]

/-- Claim C3 as amended: for every channel and every call to the smoother, the
state is updated only when the computed resistance is finite — a non-finite
resistance (NaN, e.g. from `raw = 0`) leaves the whole state unchanged and
propagates NaN as the cycle's output.  (A finite but NON-positive resistance,
e.g. `0` from a saturated `raw = 1023`, is however NOT filtered out and does
update the state, as the counterexample shows.) -/
theorem C3_invalid_resistance_no_update :
    (∀ (pin : ℕ) (st : SmoothState), MQRead pin none st = (none, st)) ∧
    MQResistanceCalculation 0 = none := by
  exact ⟨fun pin st => rfl, rfl⟩

/-- Claim C8: the first valid resistance observation seeds the smoothed state
directly (the state starts at 0, and any state `≤ 0` counts as unseeded), and
every subsequent valid observation `x` updates it as
`S' = EMA_ALPHA * x + (1 - EMA_ALPHA) * S` with `EMA_ALPHA = 0.25`; seeding
with 100 then feeding 200 yields exactly 125; and a call on one pin never
changes any other pin's state. -/
theorem C8_ema_smoother :
    EMA_ALPHA = 0.25 ∧
    (∀ s x : ℚ, s ≤ 0 → emaUpdate s x = x) ∧
    (∀ s x : ℚ, 0 < s →
      emaUpdate s x = EMA_ALPHA * x + (1 - EMA_ALPHA) * s) ∧
    (MQRead MQ2_PIN (some 100) initialSmoothState).2.mq2 = 100 ∧
    (MQRead MQ2_PIN (some 200)
      (MQRead MQ2_PIN (some 100) initialSmoothState).2).2.mq2 = 125 ∧
    (∀ (p q : ℕ) (st : SmoothState) (rs? : Option ℚ), q ≠ p →
      stateAt (MQRead p rs? st).2 q = stateAt st q) := by
  have hseed : ∀ s x : ℚ, s ≤ 0 → emaUpdate s x = x := fun s x hs => by
    rw [emaUpdate, if_pos hs]
  have hblend : ∀ s x : ℚ, 0 < s →
      emaUpdate s x = EMA_ALPHA * x + (1 - EMA_ALPHA) * s := fun s x hs => by
    rw [emaUpdate, if_neg (not_le.mpr hs)]
  refine ⟨rfl, hseed, hblend,
    by norm_num [MQRead, emaUpdate, EMA_ALPHA, MQ2_PIN, initialSmoothState],
    by norm_num [MQRead, emaUpdate, EMA_ALPHA, MQ2_PIN, initialSmoothState], ?_⟩
  intro p q st rs? hq
  cases rs? with
  | none => rfl
  | some v =>
    by_cases h0 : p = MQ2_PIN
    · subst h0
      rw [MQRead_mq2, stateAt, stateAt]
      simp only [MQ2_PIN, MQ7_PIN, MQ4_PIN, MQ9_PIN, MQ135_PIN, MQ8_PIN] at hq ⊢
      split_ifs <;> first | rfl | omega
    by_cases h1 : p = MQ7_PIN
    · subst h1
      rw [MQRead_mq7, stateAt, stateAt]
      simp only [MQ2_PIN, MQ7_PIN, MQ4_PIN, MQ9_PIN, MQ135_PIN, MQ8_PIN] at hq ⊢
      split_ifs <;> first | rfl | omega
    by_cases h4 : p = MQ4_PIN
    · subst h4
      rw [MQRead_mq4, stateAt, stateAt]
      simp only [MQ2_PIN, MQ7_PIN, MQ4_PIN, MQ9_PIN, MQ135_PIN, MQ8_PIN] at hq ⊢
      split_ifs <;> first | rfl | omega
    by_cases h2 : p = MQ9_PIN
    · subst h2
      rw [MQRead_mq9, stateAt, stateAt]
      simp only [MQ2_PIN, MQ7_PIN, MQ4_PIN, MQ9_PIN, MQ135_PIN, MQ8_PIN] at hq ⊢
      split_ifs <;> first | rfl | omega
    by_cases h3 : p = MQ135_PIN
    · subst h3
      rw [MQRead_mq135, stateAt, stateAt]
      simp only [MQ2_PIN, MQ7_PIN, MQ4_PIN, MQ9_PIN, MQ135_PIN, MQ8_PIN] at hq ⊢
      split_ifs <;> first | rfl | omega
    by_cases h5 : p = MQ8_PIN
    · subst h5
      rw [MQRead_mq8, stateAt, stateAt]
      simp only [MQ2_PIN, MQ7_PIN, MQ4_PIN, MQ9_PIN, MQ135_PIN, MQ8_PIN] at hq ⊢
      split_ifs <;> first | rfl | omega
    rw [MQRead_unknown p v st h0 h1 h4 h2 h3 h5]

/-- Witness for C8: the seed law at `(0, 42)`, the blend law at `(100, 200)`,
and pin-independence (a call on MQ-7's pin leaves MQ-2's state untouched). -/
theorem C8_witness :
    emaUpdate 0 42 = 42 ∧
    emaUpdate 100 200 = EMA_ALPHA * 200 + (1 - EMA_ALPHA) * 100 ∧
    stateAt (MQRead MQ7_PIN (some 5) initialSmoothState).2 MQ2_PIN =
      stateAt initialSmoothState MQ2_PIN :=
  ⟨C8_ema_smoother.2.1 0 42 (by norm_num),
   C8_ema_smoother.2.2.1 100 200 (by norm_num),
   C8_ema_smoother.2.2.2.2.2 MQ7_PIN MQ2_PIN initialSmoothState (some 5)
     (by rw [MQ2_PIN, MQ7_PIN]; norm_num)⟩

/-- Counterexample to claim C1: the claim says a NaN estimate on ONE channel
degrades only that channel's output and the cycle still emits the snapshot with
the other channels' estimates, the composite index and the severity label.  In
the code (line 694) the snapshot is guarded by a conjunction of `!isnan(...)`
over ALL fifteen values: with the LPG estimate NaN and every other channel
valid (0), the cycle emits NO snapshot at all — only the error line. -/
theorem C1_counterexample :
    loopEmit none (some 0) (some 0) (some 0) (some 0) (some 0) (some 0)
      (some 0) (some 0) (some 0) (some 0) (some 0) (some 0) (some 0)
      (some 0) = none := rfl

/-- Claim C1 as amended: the per-cycle output gate is all-or-nothing — the
snapshot (with every channel's estimate, the composite index and the severity
label) is produced exactly when ALL thirteen gas estimates plus humidity and
temperature are valid; if ANY of them is NaN the entire cycle's snapshot is
suppressed (an error line is printed instead).  The loop itself is not halted:
the cycle is a total function and the next cycle proceeds normally. -/
theorem C1_cycle_gate :
    (∀ lpgv cov smokev comq7v ch4v comq9v co2v nh3v noxv alcv bzv h2v airv
        huv tev : ℚ,
      loopEmit (some lpgv) (some cov) (some smokev) (some comq7v) (some ch4v)
        (some comq9v) (some co2v) (some nh3v) (some noxv) (some alcv)
        (some bzv) (some h2v) (some airv) (some huv) (some tev) =
      some { lpg := lpgv, co := cov, smoke := smokev, co_mq7 := comq7v,
             ch4 := ch4v, co_mq9 := comq9v, co2 := co2v, nh3 := nh3v,
             nox := noxv, alcohol := alcv, benzene := bzv, h2 := h2v,
             air := airv, temperature := tev, humidity := huv,
             sd_aqi := calculateSDAQI cov comq7v comq9v ch4v h2v co2v noxv airv,
             level := SD_AQI_level
               (calculateSDAQI cov comq7v comq9v ch4v h2v co2v noxv airv) }) ∧
    (∀ lpg co smoke co_mq7 ch4 co_mq9 co2 nh3 nox alcohol benzene h2 air
        humidity temperature : Option ℚ,
      (lpg = none ∨ co = none ∨ smoke = none ∨ co_mq7 = none ∨ ch4 = none ∨
       co_mq9 = none ∨ co2 = none ∨ nh3 = none ∨ nox = none ∨
       alcohol = none ∨ benzene = none ∨ h2 = none ∨ air = none ∨
       humidity = none ∨ temperature = none) →
      loopEmit lpg co smoke co_mq7 ch4 co_mq9 co2 nh3 nox alcohol benzene h2
        air humidity temperature = none) := by
  constructor
  · intro lpgv cov smokev comq7v ch4v comq9v co2v nh3v noxv alcv bzv h2v airv
      huv tev
    rfl
  · intro lpg co smoke co_mq7 ch4 co_mq9 co2 nh3 nox alcohol benzene h2 air
      humidity temperature h
    rcases h with rfl|rfl|rfl|rfl|rfl|rfl|rfl|rfl|rfl|rfl|rfl|rfl|rfl|rfl|rfl
    · rfl
    · exact bind_none_of_forall fun _ => rfl
    · exact bind_none_of_forall fun _ => bind_none_of_forall fun _ => rfl
    · exact bind_none_of_forall fun _ => bind_none_of_forall fun _ =>
        bind_none_of_forall fun _ => rfl
    · exact bind_none_of_forall fun _ => bind_none_of_forall fun _ =>
        bind_none_of_forall fun _ => bind_none_of_forall fun _ => rfl
    · exact bind_none_of_forall fun _ => bind_none_of_forall fun _ =>
        bind_none_of_forall fun _ => bind_none_of_forall fun _ =>
        bind_none_of_forall fun _ => rfl
    · exact bind_none_of_forall fun _ => bind_none_of_forall fun _ =>
        bind_none_of_forall fun _ => bind_none_of_forall fun _ =>
        bind_none_of_forall fun _ => bind_none_of_forall fun _ => rfl
    · exact bind_none_of_forall fun _ => bind_none_of_forall fun _ =>
        bind_none_of_forall fun _ => bind_none_of_forall fun _ =>
        bind_none_of_forall fun _ => bind_none_of_forall fun _ =>
        bind_none_of_forall fun _ => rfl
    · exact bind_none_of_forall fun _ => bind_none_of_forall fun _ =>
        bind_none_of_forall fun _ => bind_none_of_forall fun _ =>
        bind_none_of_forall fun _ => bind_none_of_forall fun _ =>
        bind_none_of_forall fun _ => bind_none_of_forall fun _ => rfl
    · exact bind_none_of_forall fun _ => bind_none_of_forall fun _ =>
        bind_none_of_forall fun _ => bind_none_of_forall fun _ =>
        bind_none_of_forall fun _ => bind_none_of_forall fun _ =>
        bind_none_of_forall fun _ => bind_none_of_forall fun _ =>
        bind_none_of_forall fun _ => rfl
    · exact bind_none_of_forall fun _ => bind_none_of_forall fun _ =>
        bind_none_of_forall fun _ => bind_none_of_forall fun _ =>
        bind_none_of_forall fun _ => bind_none_of_forall fun _ =>
        bind_none_of_forall fun _ => bind_none_of_forall fun _ =>
        bind_none_of_forall fun _ => bind_none_of_forall fun _ => rfl
    · exact bind_none_of_forall fun _ => bind_none_of_forall fun _ =>
        bind_none_of_forall fun _ => bind_none_of_forall fun _ =>
        bind_none_of_forall fun _ => bind_none_of_forall fun _ =>
        bind_none_of_forall fun _ => bind_none_of_forall fun _ =>
        bind_none_of_forall fun _ => bind_none_of_forall fun _ =>
        bind_none_of_forall fun _ => rfl
    · exact bind_none_of_forall fun _ => bind_none_of_forall fun _ =>
        bind_none_of_forall fun _ => bind_none_of_forall fun _ =>
        bind_none_of_forall fun _ => bind_none_of_forall fun _ =>
        bind_none_of_forall fun _ => bind_none_of_forall fun _ =>
        bind_none_of_forall fun _ => bind_none_of_forall fun _ =>
        bind_none_of_forall fun _ => bind_none_of_forall fun _ => rfl
    · exact bind_none_of_forall fun _ => bind_none_of_forall fun _ =>
        bind_none_of_forall fun _ => bind_none_of_forall fun _ =>
        bind_none_of_forall fun _ => bind_none_of_forall fun _ =>
        bind_none_of_forall fun _ => bind_none_of_forall fun _ =>
        bind_none_of_forall fun _ => bind_none_of_forall fun _ =>
        bind_none_of_forall fun _ => bind_none_of_forall fun _ =>
        bind_none_of_forall fun _ => rfl
    · exact bind_none_of_forall fun _ => bind_none_of_forall fun _ =>
        bind_none_of_forall fun _ => bind_none_of_forall fun _ =>
        bind_none_of_forall fun _ => bind_none_of_forall fun _ =>
        bind_none_of_forall fun _ => bind_none_of_forall fun _ =>
        bind_none_of_forall fun _ => bind_none_of_forall fun _ =>
        bind_none_of_forall fun _ => bind_none_of_forall fun _ =>
        bind_none_of_forall fun _ => bind_none_of_forall fun _ => rfl

/-- Witness for C1 (amended): a concrete all-valid cycle emits the snapshot,
and a NaN in the last slot (temperature) suppresses it. -/
theorem C1_witness :
    loopEmit (some 1) (some 2) (some 3) (some 4) (some 5) (some 6) (some 7)
      (some 8) (some 9) (some 10) (some 11) (some 12) (some 13) (some 14)
      (some 15) =
      some { lpg := 1, co := 2, smoke := 3, co_mq7 := 4, ch4 := 5, co_mq9 := 6,
             co2 := 7, nh3 := 8, nox := 9, alcohol := 10, benzene := 11,
             h2 := 12, air := 13, temperature := 15, humidity := 14,
             sd_aqi := calculateSDAQI 2 4 6 5 12 7 9 13,
             level := SD_AQI_level (calculateSDAQI 2 4 6 5 12 7 9 13) } ∧
    loopEmit (some 1) (some 2) (some 3) (some 4) (some 5) (some 6) (some 7)
      (some 8) (some 9) (some 10) (some 11) (some 12) (some 13) (some 14)
      none = none :=
  ⟨C1_cycle_gate.1 1 2 3 4 5 6 7 8 9 10 11 12 13 14 15,
   C1_cycle_gate.2 (some 1) (some 2) (some 3) (some 4) (some 5) (some 6)
     (some 7) (some 8) (some 9) (some 10) (some 11) (some 12) (some 13)
     (some 14) none (by simp)⟩

theorem log_ten_pos : 0 < Real.log 10 := Real.log_pos (by norm_num)

theorem log10_ten : log10 10 = 1 := div_self (ne_of_gt log_ten_pos)

theorem log10_hundred : log10 100 = 2 := by
  have h : (100 : ℝ) = 10 ^ (2 : ℕ) := by norm_num
  rw [log10, h, Real.log_pow]
  field_simp

/-- Claim C6: the two-point fit with `x = ln(ratio)`, `y = log10(ppm)` rejects
(`none`, the `DegenerateCalibration` signal) exactly when `|x2 - x1| < 1e-6`,
and otherwise returns `p2 = 1/m` with `m = (y2-y1)/(x2-x1)`, `p1 = 0` and
`p0 = y1 - x1/p2`; for the pairs `(ppm=10, ratio=e^1)` and
`(ppm=100, ratio=e^2)` it yields `p2 = 1, p1 = 0, p0 = 0`, and the
concentration estimator at `ratio = e^1.5` with that curve returns
`10^1.5`. -/
theorem C6_two_point_fit :
    (∀ ppm1 r1 ppm2 r2 : ℝ,
      (computeTwoPointCurve ppm1 r1 ppm2 r2 = none ↔
        |Real.log r2 - Real.log r1| < 1e-6)) ∧
    (∀ ppm1 r1 ppm2 r2 : ℝ, 1e-6 ≤ |Real.log r2 - Real.log r1| →
      computeTwoPointCurve ppm1 r1 ppm2 r2 =
        some ⟨log10 ppm1 - Real.log r1 /
                (1 / ((log10 ppm2 - log10 ppm1) /
                  (Real.log r2 - Real.log r1))),
              0,
              1 / ((log10 ppm2 - log10 ppm1) /
                (Real.log r2 - Real.log r1))⟩) ∧
    computeTwoPointCurve 10 (Real.exp 1) 100 (Real.exp 2) = some ⟨0, 0, 1⟩ ∧
    MQGetGasPercentage (Real.exp 1.5) ⟨0, 0, 1⟩ = (10 : ℝ) ^ (1.5 : ℝ) := by
  refine ⟨fun ppm1 r1 ppm2 r2 => ?_, fun ppm1 r1 ppm2 r2 h => ?_, ?_, ?_⟩
  · rw [computeTwoPointCurve]
    split_ifs with h <;> simp [h]
  · rw [computeTwoPointCurve, if_neg (not_lt.mpr h)]
    simp only [Curve.mk.injEq]
    norm_num
  · rw [computeTwoPointCurve]
    simp only [Real.log_exp, log10_ten, log10_hundred]
    norm_num
  · rw [MQGetGasPercentage]
    simp [Real.log_exp]

/-- Witness for C6's non-degenerate clause at the concrete calibration pair
`(ppm=10, ratio=e^1)`, `(ppm=100, ratio=e^2)` (where `|x2 - x1| = 1`). -/
theorem C6_witness :
    computeTwoPointCurve 10 (Real.exp 1) 100 (Real.exp 2) =
      some ⟨log10 10 - Real.log (Real.exp 1) /
              (1 / ((log10 100 - log10 10) /
                (Real.log (Real.exp 2) - Real.log (Real.exp 1)))),
            0,
            1 / ((log10 100 - log10 10) /
              (Real.log (Real.exp 2) - Real.log (Real.exp 1)))⟩ :=
  C6_two_point_fit.2.1 10 (Real.exp 1) 100 (Real.exp 2)
    (by rw [Real.log_exp, Real.log_exp]; norm_num)

theorem calibration_example_points :
    collectPoints [(10, some (Real.exp 1)), (100, some (Real.exp 2))] =
      some [(10, Real.exp 1), (100, Real.exp 2)] := by
  have he1 : ¬ (Real.exp 1 ≤ 0) := not_le.mpr (Real.exp_pos 1)
  have he2 : ¬ (Real.exp 2 ≤ 0) := not_le.mpr (Real.exp_pos 2)
  rw [collectPoints, if_neg he1, collectPoints, if_neg he2, collectPoints]
  rfl

theorem calibration_example_curve :
    computeMultiPointCurve [(10, Real.exp 1), (100, Real.exp 2)] =
      some ⟨3/2, 3/2, 1⟩ := by
  have he1 : ¬ (Real.exp 1 ≤ 0) := not_le.mpr (Real.exp_pos 1)
  have he2 : ¬ (Real.exp 2 ≤ 0) := not_le.mpr (Real.exp_pos 2)
  rw [computeMultiPointCurve]
  simp only [List.length_cons, List.length_nil, List.map_cons, List.map_nil,
    List.sum_cons, List.sum_nil, Real.log_exp, log10_ten, log10_hundred]
  norm_num [he1, he2]

theorem calibration_example_fit :
    calibrationFitResult 2 [(10, some (Real.exp 1)), (100, some (Real.exp 2))] =
      some ⟨3/2, 3/2, 1⟩ := by
  rw [calibrationFitResult, if_neg (by norm_num), if_neg (by norm_num)]
  rw [show sensorToPin 2 = some MQ2_PIN from rfl]
  rw [calibration_example_points]
  exact calibration_example_curve

/-- Counterexample to claim C2: a calibration session that completes with a
successful fit does NOT install the fitted coefficients as the channel's
active curve.  The concrete session (sensor code 2, reference points
`(ppm=10, Rs/Ro=e^1)` and `(ppm=100, Rs/Ro=e^2)`) completes successfully and
reports the fitted curve `(3/2, 3/2, 1)` — but the device state is returned
unchanged (the sketch only prints the coefficients for the operator to copy by
hand), and the curve the measurement loop feeds to the concentration estimator
for the MQ-2 channel in every subsequent cycle is still the PROGMEM constant
`MQ2Curve = (1.291, 0.21, -0.47) ≠ (3/2, 3/2, 1)`. -/
theorem C2_counterexample :
    handleSerialCalibration 2
        [(10, some (Real.exp 1)), (100, some (Real.exp 2))]
        initialDeviceState =
      (initialDeviceState, some ⟨3/2, 3/2, 1⟩) ∧
    Curve.mk (3/2) (3/2) 1 ≠ loopLPGCurve := by
  constructor
  · rw [handleSerialCalibration, calibration_example_fit]
  · simp only [loopLPGCurve, MQ2Curve, ne_eq, Curve.mk.injEq]
    norm_num

/-- Claim C2 as amended: a calibration session never modifies the device state
or any channel's active curve — on abort or `FitRejected` the prior (built-in)
curve trivially remains in force, and even a session that completes with a
successful fit only REPORTS the fitted coefficients (for the operator to copy
into the sketch manually); any reported curve is exactly the multi-point
least-squares fit of the validly collected points, and the loop's concentration
estimator keeps using the built-in PROGMEM curve in all subsequent cycles. -/
theorem C2_calibration_all_or_nothing :
    (∀ (sensor : ℕ) (points : List (ℝ × Option ℝ)) (st : DeviceState),
      (handleSerialCalibration sensor points st).1 = st) ∧
    (∀ (sensor : ℕ) (points : List (ℝ × Option ℝ)) (st : DeviceState)
        (c : Curve),
      (handleSerialCalibration sensor points st).2 = some c →
      ∃ pts, collectPoints points = some pts ∧
        computeMultiPointCurve pts = some c) ∧
    loopLPGCurve = MQ2Curve := by
  refine ⟨fun sensor points st => rfl, ?_, rfl⟩
  intro sensor points st c h
  have h' : calibrationFitResult sensor points = some c := h
  rw [calibrationFitResult] at h'
  split_ifs at h'
  split at h'
  · exact absurd h' (by simp)
  · split at h'
    · exact absurd h' (by simp)
    · rename_i pts heq
      exact ⟨pts, heq, h'⟩

/-- Witness for C2 (amended): the concrete successful session above indeed
reports exactly the least-squares fit of its collected points. -/
theorem C2_witness :
    ∃ pts,
      collectPoints [(10, some (Real.exp 1)), (100, some (Real.exp 2))] =
        some pts ∧
      computeMultiPointCurve pts = some ⟨3/2, 3/2, 1⟩ :=
  C2_calibration_all_or_nothing.2.1 2
    [(10, some (Real.exp 1)), (100, some (Real.exp 2))]
    initialDeviceState ⟨3/2, 3/2, 1⟩
    (by rw [handleSerialCalibration, calibration_example_fit])

end SDAQI
